import Mathlib

/-!
Shallow embedding of `src/agent.py`: a Flask application exposing
`GET /` (serve a static chat page) and `POST /agent` (validate a JSON body,
forward the `query` value to a configured agent, return the agent's text).
The agent runtime (`google.adk.agents.Agent`), the instruction payload
(`prompt.BIGQUERY_PROMPT`) and the tool (`tools.query_bigquery`) are external
collaborators; the agent invocation is modelled as an oracle function giving,
for the value passed to it, either the text of the produced response or the
message of the exception it raised.
-/

/-- A JSON value, as produced by Flask's `request.json` (Python's `json`
module): `null`, booleans, numbers (integers suffice for the claims),
strings, arrays, and objects as key/value lists. -/
inductive Json where
  | null : Json
  | bool (b : Bool) : Json
  | num (n : Int) : Json
  | str (s : String) : Json
  | arr (xs : List Json) : Json
  | obj (kvs : List (String × Json)) : Json

/-- Python truthiness (`if not user_query:` in `agent_handler`):
`None`, `False`, `0`, `""`, `[]` and `{}` are falsy, everything else truthy. -/
def truthy : Json → Bool
  | .null => false
  | .bool b => b
  | .num n => n != 0
  | .str s => s != ""
  | .arr xs => !xs.isEmpty
  | .obj kvs => !kvs.isEmpty

/-- Lookup of a key in a JSON object's key/value list, first match wins
(a Python dict has no duplicate keys); `none` models Python's
`dict.get` returning `None` for a missing key. -/
def jsonGet : List (String × Json) → String → Option Json
  | [], _ => none
  | (k, v) :: rest, key => if k = key then some v else jsonGet rest key

/-- The Python type name of a JSON value, as it appears in CPython's
`AttributeError` message when `.get` is called on a non-dict. -/
def pyTypeName : Json → String
  | .null => "NoneType"
  | .bool _ => "bool"
  | .num _ => "int"
  | .str _ => "str"
  | .arr _ => "list"
  | .obj _ => "dict"

/-- The message of the `AttributeError` raised by `data.get('query')`
when `data` is not a dict (in particular `None`, i.e. a JSON `null` body). -/
def attributeErrorMsg (data : Json) : String :=
  "'" ++ pyTypeName data ++ "' object has no attribute 'get'"

/-- An HTTP response of the `POST /agent` handler: a status code together
with the JSON body produced by `jsonify`. -/
structure HttpResponse where
  status : Nat
  body : Json

/-- The body `jsonify({"error": msg})` used by both error paths of
`agent_handler`. -/
def errBody (msg : String) : Json := .obj [("error", .str msg)]

/-- The fixed validation-error message of `agent_handler`. -/
def missingQueryMsg : String := "Missing 'query' field in request"

/-- The outcome of evaluating `request.json` for one request: `failure msg`
models `request.json` raising an exception with message `msg` (missing body,
wrong content type, or malformed JSON — inside the handler's `try`, so caught
by its `except`); `success j` models a successful parse to the JSON value `j`
(`j = Json.null` when the body is the JSON literal `null`, for which
`request.json` returns `None`). -/
inductive RequestBody where
  | failure (excMsg : String) : RequestBody
  | success (data : Json) : RequestBody

/-- The agent oracle: the outcome of `root_agent.generate_response(v).text`
for the value `v` the handler passes — `Except.ok t` when the call returns an
object whose `text` field is `t`, `Except.error m` when any exception with
message `m` is raised during the invocation or the attribute access. -/
def AgentOracle : Type := Json → Except String String

/-- Embedding of `agent_handler` (src/agent.py lines 165-182). Besides the
response it returns the list of values passed to
`root_agent.generate_response`, so that claims about when and how often the
agent is invoked can be stated. The whole body runs inside
`try: ... except Exception as e: return jsonify({"error": str(e)}), 500`, so
every raise point maps to a 500 response with the stringified exception. -/
def agent_handler (agent : AgentOracle) (body : RequestBody) :
    HttpResponse × List Json :=
  match body with
  | .failure msg => (⟨500, errBody msg⟩, [])
  | .success data =>
    match data with
    | .obj kvs =>
      -- user_query = data.get('query'); missing key gives None
      let user_query : Json := (jsonGet kvs "query").getD .null
      if truthy user_query = false then
        (⟨400, errBody missingQueryMsg⟩, [])
      else
        match agent user_query with
        | .ok response_text =>
          (⟨200, .obj [("response", .str response_text), ("status", .str "ok")]⟩,
            [user_query])
        | .error m => (⟨500, errBody m⟩, [user_query])
    | other =>
      -- data.get raises AttributeError when request.json gave a non-dict
      (⟨500, errBody (attributeErrorMsg other)⟩, [])

/-- An HTTP response whose body is an HTML document, as produced by
returning a string from a Flask view function (status 200). -/
structure HtmlResponse where
  status : Nat
  body : String

/-- Prefix of `CHAT_UI_HTML` up to the first occurrence of "Dixie Agent"
(the content of the `<title>` element). -/
def chatUiPre : String :=
  "\n<!DOCTYPE html>\n<html lang=\"en\">\n<head>\n    <meta charset=\"UTF-8\">\n    <meta name=\"viewport\" content=\"width=device-width, initial-scale=1.0\">\n    <title>"

/-- Suffix of `CHAT_UI_HTML` after the first occurrence of "Dixie Agent". -/
def chatUiPost : String :=
  "</title>\n    <script src=\"https://cdn.tailwindcss.com\"></script>\n    <style>\n        body \x7b font-family: 'Inter', sans-serif; \x7d\n    </style>\n</head>\n<body class=\"bg-gray-100 dark:bg-gray-900 text-gray-900 dark:text-gray-100 flex items-center justify-center min-h-screen\">\n    <div class=\"w-full max-w-2xl bg-white dark:bg-gray-800 rounded-lg shadow-lg p-6 m-4\">\n        <h1 class=\"text-2xl font-bold text-center mb-6\">Dixie Agent</h1>\n        \n        <!-- Chat History -->\n        <div id=\"chat-history\" class=\"h-96 overflow-y-auto mb-4 p-4 border border-gray-200 dark:border-gray-700 rounded-lg bg-gray-50 dark:bg-gray-700\">\n            <div class=\"flex items-start mb-4\">\n                <div class=\"bg-blue-500 text-white rounded-xl p-3 shadow-md\">\n                    Hello! I am Dixie, an AI recruiting assistant. How can I help you find talent today?\n                </div>\n            </div>\n        </div>\n\n        <!-- Input Form -->\n        <div class=\"flex items-center space-x-2\">\n            <input type=\"text\" id=\"user-input\" placeholder=\"Type your message...\" class=\"flex-grow p-3 border border-gray-300 dark:border-gray-600 rounded-lg focus:outline-none focus:ring-2 focus:ring-blue-500 dark:bg-gray-900\">\n            <button id=\"send-button\" class=\"bg-blue-500 hover:bg-blue-600 text-white font-bold py-3 px-6 rounded-lg transition duration-200 ease-in-out\">\n                Send\n            </button>\n        </div>\n        \n    </div>\n\n    <script>\n        const chatHistory = document.getElementById('chat-history');\n        const userInput = document.getElementById('user-input');\n        const sendButton = document.getElementById('send-button');\n        \n        // This is a more robust way to handle a root URL\n        const backendUrl = window.location.origin;\n\n        // Function to create a message bubble\n        function addMessage(text, isUser) \x7b\n            const messageDiv = document.createElement('div');\n            messageDiv.className = `flex mb-4 $\x7bisUser ? 'justify-end' : 'justify-start'\x7d`;\n            \n            const bubbleDiv = document.createElement('div');\n            bubbleDiv.className = `max-w-md p-3 rounded-xl shadow-md $\x7bisUser ? 'bg-blue-500 text-white' : 'bg-gray-200 dark:bg-gray-600 text-gray-900 dark:text-white'\x7d`;\n            bubbleDiv.textContent = text;\n            \n            messageDiv.appendChild(bubbleDiv);\n            chatHistory.appendChild(messageDiv);\n            chatHistory.scrollTop = chatHistory.scrollHeight; // Scroll to the bottom\n        \x7d\n\n        async function sendMessage() \x7b\n            const query = userInput.value.trim();\n            if (!query) return;\n\n            addMessage(query, true); // Add user's message to chat\n            userInput.value = ''; // Clear input field\n\n            // Show a loading indicator\n            addMessage(\"Thinking...\", false);\n            const thinkingMessage = chatHistory.lastChild.querySelector('div');\n            \n            try \x7b\n                const apiPath = '/agent';\n\n                const response = await fetch(backendUrl + apiPath, \x7b\n                    method: 'POST',\n                    headers: \x7b\n                        'Content-Type': 'application/json'\n                    \x7d,\n                    body: JSON.stringify(\x7b query: query \x7d)\n                \x7d);\n\n                const data = await response.json();\n\n                // Remove loading indicator and display actual response\n                chatHistory.removeChild(chatHistory.lastChild);\n                if (response.ok) \x7b\n                    addMessage(data.response, false);\n                \x7d else \x7b\n                    addMessage(`Error: $\x7bdata.error\x7d`, false);\n                \x7d\n\n            \x7d catch (error) \x7b\n                chatHistory.removeChild(chatHistory.lastChild);\n                addMessage(`An error occurred: $\x7berror.message\x7d`, false);\n            \x7d\n        \x7d\n\n        sendButton.addEventListener('click', sendMessage);\n        userInput.addEventListener('keypress', (e) => \x7b\n            if (e.key === 'Enter') \x7b\n                sendMessage();\n            \x7d\n        \x7d);\n    </script>\n</body>\n</html>\n"

/-- The chat-page document `CHAT_UI_HTML` (src/agent.py lines 52-156), with
literal braces written as escapes. -/
def CHAT_UI_HTML : String :=
  "\n<!DOCTYPE html>\n<html lang=\"en\">\n<head>\n    <meta charset=\"UTF-8\">\n    <meta name=\"viewport\" content=\"width=device-width, initial-scale=1.0\">\n    <title>Dixie Agent</title>\n    <script src=\"https://cdn.tailwindcss.com\"></script>\n    <style>\n        body \x7b font-family: 'Inter', sans-serif; \x7d\n    </style>\n</head>\n<body class=\"bg-gray-100 dark:bg-gray-900 text-gray-900 dark:text-gray-100 flex items-center justify-center min-h-screen\">\n    <div class=\"w-full max-w-2xl bg-white dark:bg-gray-800 rounded-lg shadow-lg p-6 m-4\">\n        <h1 class=\"text-2xl font-bold text-center mb-6\">Dixie Agent</h1>\n        \n        <!-- Chat History -->\n        <div id=\"chat-history\" class=\"h-96 overflow-y-auto mb-4 p-4 border border-gray-200 dark:border-gray-700 rounded-lg bg-gray-50 dark:bg-gray-700\">\n            <div class=\"flex items-start mb-4\">\n                <div class=\"bg-blue-500 text-white rounded-xl p-3 shadow-md\">\n                    Hello! I am Dixie, an AI recruiting assistant. How can I help you find talent today?\n                </div>\n            </div>\n        </div>\n\n        <!-- Input Form -->\n        <div class=\"flex items-center space-x-2\">\n            <input type=\"text\" id=\"user-input\" placeholder=\"Type your message...\" class=\"flex-grow p-3 border border-gray-300 dark:border-gray-600 rounded-lg focus:outline-none focus:ring-2 focus:ring-blue-500 dark:bg-gray-900\">\n            <button id=\"send-button\" class=\"bg-blue-500 hover:bg-blue-600 text-white font-bold py-3 px-6 rounded-lg transition duration-200 ease-in-out\">\n                Send\n            </button>\n        </div>\n        \n    </div>\n\n    <script>\n        const chatHistory = document.getElementById('chat-history');\n        const userInput = document.getElementById('user-input');\n        const sendButton = document.getElementById('send-button');\n        \n        // This is a more robust way to handle a root URL\n        const backendUrl = window.location.origin;\n\n        // Function to create a message bubble\n        function addMessage(text, isUser) \x7b\n            const messageDiv = document.createElement('div');\n            messageDiv.className = `flex mb-4 $\x7bisUser ? 'justify-end' : 'justify-start'\x7d`;\n            \n            const bubbleDiv = document.createElement('div');\n            bubbleDiv.className = `max-w-md p-3 rounded-xl shadow-md $\x7bisUser ? 'bg-blue-500 text-white' : 'bg-gray-200 dark:bg-gray-600 text-gray-900 dark:text-white'\x7d`;\n            bubbleDiv.textContent = text;\n            \n            messageDiv.appendChild(bubbleDiv);\n            chatHistory.appendChild(messageDiv);\n            chatHistory.scrollTop = chatHistory.scrollHeight; // Scroll to the bottom\n        \x7d\n\n        async function sendMessage() \x7b\n            const query = userInput.value.trim();\n            if (!query) return;\n\n            addMessage(query, true); // Add user's message to chat\n            userInput.value = ''; // Clear input field\n\n            // Show a loading indicator\n            addMessage(\"Thinking...\", false);\n            const thinkingMessage = chatHistory.lastChild.querySelector('div');\n            \n            try \x7b\n                const apiPath = '/agent';\n\n                const response = await fetch(backendUrl + apiPath, \x7b\n                    method: 'POST',\n                    headers: \x7b\n                        'Content-Type': 'application/json'\n                    \x7d,\n                    body: JSON.stringify(\x7b query: query \x7d)\n                \x7d);\n\n                const data = await response.json();\n\n                // Remove loading indicator and display actual response\n                chatHistory.removeChild(chatHistory.lastChild);\n                if (response.ok) \x7b\n                    addMessage(data.response, false);\n                \x7d else \x7b\n                    addMessage(`Error: $\x7bdata.error\x7d`, false);\n                \x7d\n\n            \x7d catch (error) \x7b\n                chatHistory.removeChild(chatHistory.lastChild);\n                addMessage(`An error occurred: $\x7berror.message\x7d`, false);\n            \x7d\n        \x7d\n\n        sendButton.addEventListener('click', sendMessage);\n        userInput.addEventListener('keypress', (e) => \x7b\n            if (e.key === 'Enter') \x7b\n                sendMessage();\n            \x7d\n        \x7d);\n    </script>\n</body>\n</html>\n"

/-- Embedding of Flask's `render_template_string` as applied in `serve_ui`:
the template `CHAT_UI_HTML` contains none of the Jinja2 delimiters
(no "\x7b\x7b", "\x7b%" or "\x7b#" two-character sequences occur in it), so
rendering it returns the template text unchanged. -/
def render_template_string (template : String) : String := template

/-- Embedding of `serve_ui` (src/agent.py lines 159-162): a constant — the
route takes no parameters and a returned string gets status 200. -/
def serve_ui : HtmlResponse :=
  ⟨200, render_template_string CHAT_UI_HTML⟩

/-- Modelled from the spec: the instruction payload `prompt.BIGQUERY_PROMPT`
lives in `prompt.py`, which is not among the sources; the spec describes it
only as "a fixed instruction payload" containing the database context and
reasoning logic, so it is modelled as an unspecified fixed string constant. -/
def BIGQUERY_PROMPT : String := "BIGQUERY_PROMPT"

/-- Modelled from the spec: the single registered capability
`tools.query_bigquery` lives in `tools.py`, which is not among the sources;
the spec describes it only as "execute a SQL query against a managed
warehouse, return results", so tools are modelled as opaque tags. -/
inductive Tool where
  | query_bigquery : Tool

/-- The configuration record handed to the external agent framework by the
`Agent(...)` constructor call in src/agent.py lines 36-44: a name, a model
identifier, a description, an instruction string and a tool list. -/
structure Agent where
  name : String
  model : String
  description : String
  instruction : String
  tools : List Tool

/-- The process environment at startup, as read by `os.environ.get`. -/
def Env : Type := String → Option String

/-- Embedding of `ROOT_AGENT_MODEL = os.environ.get("ROOT_AGENT_MODEL",
"gemini-2.5-flash")` (src/agent.py line 31): the environment variable's value
when set, the default `"gemini-2.5-flash"` when unset. -/
def ROOT_AGENT_MODEL (env : Env) : String :=
  (env "ROOT_AGENT_MODEL").getD "gemini-2.5-flash"

/-- Embedding of the module-level `root_agent = Agent(...)` definition
(src/agent.py lines 36-44), evaluated once at startup as a pure function of
the process environment and never reassigned afterwards. -/
def root_agent (env : Env) : Agent :=
  { name := "bigquery_agent"
    model := ROOT_AGENT_MODEL env
    description := "An agent that understands questions about a BigQuery database, generates SQL, executes it, and provides answers."
    instruction := BIGQUERY_PROMPT
    tools := [Tool.query_bigquery] }

/-- Well-formedness of a `POST /agent` response per the spec's schema: either
status 200 with a body holding a string "response" and "status" equal to
"ok", or status 400 or 500 with a body holding a single string "error". -/
def wellFormedResponse (r : HttpResponse) : Prop :=
  (r.status = 200 ∧
    ∃ t, r.body = .obj [("response", .str t), ("status", .str "ok")]) ∨
  ((r.status = 400 ∨ r.status = 500) ∧ ∃ m, r.body = errBody m)

/-- Whether a JSON value is an object (a Python dict, the only values with a
`get` method). -/
def Json.isObj : Json → Bool
  | .obj _ => true
  | _ => false

/-- An adapter whose invocation succeeds with text `t` on every input. -/
def okAgent (t : String) : AgentOracle := fun _ => .ok t

/-- An adapter whose invocation raises an exception with message `m` on every
input. -/
def errAgent (m : String) : AgentOracle := fun _ => .error m

/-- An environment binding every variable to `v`. -/
def envAll (v : String) : Env := fun _ => some v

/-- An environment with no variables set. -/
def emptyEnv : Env := fun _ => none

/-- C1: for a JSON-object body whose `query` field is a non-empty string `s`,
if the adapter call on `s` succeeds with text `t`, the handler returns
status 200 with body of shape response `t`, status "ok"; the query reaches
the adapter unchanged and the adapter's text is returned unchanged. -/
theorem agent_handler_success (agent : AgentOracle)
    (kvs : List (String × Json)) (s t : String)
    (hq : jsonGet kvs "query" = some (.str s)) (hs : s ≠ "")
    (ha : agent (.str s) = .ok t) :
    agent_handler agent (.success (.obj kvs)) =
      (⟨200, .obj [("response", .str t), ("status", .str "ok")]⟩, [.str s]) := by
  simp only [agent_handler, hq, Option.getD_some]
  rw [if_neg (by simp [truthy, hs]), ha]

/-- Witness for C1 at body query "hi" and an adapter answering "42". -/
theorem agent_handler_success_witness :
    agent_handler (okAgent "42") (.success (.obj [("query", .str "hi")])) =
      (⟨200, .obj [("response", .str "42"), ("status", .str "ok")]⟩,
        [.str "hi"]) :=
  agent_handler_success (okAgent "42") [("query", .str "hi")] "hi" "42"
    rfl (by decide) rfl

/-- C2: for a JSON-object body in which `query` is absent or the empty
string, the handler returns status 400 with the exact fixed error body, and
the adapter is never invoked (the invocation list is empty). -/
theorem agent_handler_missing_query (agent : AgentOracle)
    (kvs : List (String × Json))
    (h : jsonGet kvs "query" = none ∨ jsonGet kvs "query" = some (.str "")) :
    agent_handler agent (.success (.obj kvs)) =
      (⟨400, .obj [("error", .str "Missing 'query' field in request")]⟩, []) := by
  rcases h with h | h <;>
    simp [agent_handler, h, truthy, errBody, missingQueryMsg]

/-- Witness for C2 at the empty-object body (query absent). -/
theorem agent_handler_missing_query_witness :
    agent_handler (okAgent "42") (.success (.obj [])) =
      (⟨400, .obj [("error", .str "Missing 'query' field in request")]⟩, []) :=
  agent_handler_missing_query (okAgent "42") [] (Or.inl rfl)

/-- C3: every exception raised inside the handler's try block is caught and
mapped to status 500 with the stringified exception as the error body —
whether `request.json` raised, `data.get` raised an AttributeError on a
non-dict body, or the adapter invocation raised; the handler is a total
function, so no exception propagates and each failure is confined to that
request's own response. -/
theorem agent_handler_catches_exceptions (agent : AgentOracle) :
    (∀ msg, agent_handler agent (.failure msg) = (⟨500, errBody msg⟩, [])) ∧
    (∀ data, data.isObj = false →
      agent_handler agent (.success data) =
        (⟨500, errBody (attributeErrorMsg data)⟩, [])) ∧
    (∀ kvs v m, jsonGet kvs "query" = some v → truthy v = true →
      agent v = .error m →
      agent_handler agent (.success (.obj kvs)) =
        (⟨500, errBody m⟩, [v])) := by
  refine ⟨fun msg => rfl, fun data hdata => ?_, fun kvs v m hq hv ha => ?_⟩
  · cases data <;> first | rfl | simp [Json.isObj] at hdata
  · simp only [agent_handler, hq, Option.getD_some]
    rw [if_neg (by simp [hv]), ha]

/-- Witness for C3 at a raising adapter on a valid query. -/
theorem agent_handler_catches_exceptions_witness :
    agent_handler (errAgent "boom") (.success (.obj [("query", .str "hi")])) =
      (⟨500, errBody "boom"⟩, [.str "hi"]) :=
  (agent_handler_catches_exceptions (errAgent "boom")).2.2
    [("query", .str "hi")] (.str "hi") "boom" rfl rfl rfl

/-- C4: GET / returns status 200 with the fixed document `CHAT_UI_HTML`,
which contains the literal string "Dixie Agent"; the route is a constant,
with no parameters and no failure branch. -/
theorem serve_ui_ok :
    serve_ui.status = 200 ∧ serve_ui.body = CHAT_UI_HTML ∧
    ∃ p q, serve_ui.body = p ++ "Dixie Agent" ++ q :=
  ⟨rfl, rfl, chatUiPre, chatUiPost, by rfl⟩

/-- C5: the model identifier is read from the environment variable
ROOT_AGENT_MODEL, defaulting to "gemini-2.5-flash" when unset, and the agent
is a pure function of the startup environment with fixed name
"bigquery_agent", fixed description, fixed instruction and a single-element
tool list. -/
theorem root_agent_config (env : Env) (v : String) :
    (env "ROOT_AGENT_MODEL" = some v → ROOT_AGENT_MODEL env = v) ∧
    (env "ROOT_AGENT_MODEL" = none →
      ROOT_AGENT_MODEL env = "gemini-2.5-flash") ∧
    root_agent env =
      { name := "bigquery_agent"
        model := ROOT_AGENT_MODEL env
        description := "An agent that understands questions about a BigQuery database, generates SQL, executes it, and provides answers."
        instruction := BIGQUERY_PROMPT
        tools := [Tool.query_bigquery] } := by
  refine ⟨fun h => ?_, fun h => ?_, rfl⟩ <;> simp [ROOT_AGENT_MODEL, h]

/-- Witness for C5 at an environment binding the variable to "custom-model"
and at the empty environment. -/
theorem root_agent_config_witness :
    ROOT_AGENT_MODEL (envAll "custom-model") = "custom-model" ∧
    ROOT_AGENT_MODEL emptyEnv = "gemini-2.5-flash" :=
  ⟨(root_agent_config (envAll "custom-model") "custom-model").1 rfl,
   (root_agent_config emptyEnv "unused").2.1 rfl⟩

/-- C6: two requests carrying the same valid non-empty string query are two
independent runs of the same pure function: each run invokes the adapter
exactly once with that query, each run's response is determined by its own
adapter's result alone (so responses may differ across runs), and each
response is well-formed per the schema. -/
theorem agent_handler_runs_independent (a1 a2 : AgentOracle)
    (kvs : List (String × Json)) (s : String)
    (hq : jsonGet kvs "query" = some (.str s)) (hs : s ≠ "") :
    (agent_handler a1 (.success (.obj kvs))).2 = [.str s] ∧
    (agent_handler a2 (.success (.obj kvs))).2 = [.str s] ∧
    (∀ t, a1 (.str s) = .ok t →
      (agent_handler a1 (.success (.obj kvs))).1 =
        ⟨200, .obj [("response", .str t), ("status", .str "ok")]⟩) ∧
    (∀ t, a2 (.str s) = .ok t →
      (agent_handler a2 (.success (.obj kvs))).1 =
        ⟨200, .obj [("response", .str t), ("status", .str "ok")]⟩) ∧
    wellFormedResponse (agent_handler a1 (.success (.obj kvs))).1 ∧
    wellFormedResponse (agent_handler a2 (.success (.obj kvs))).1 := by
  have key : ∀ a : AgentOracle,
      (agent_handler a (.success (.obj kvs))).2 = [.str s] ∧
      (∀ t, a (.str s) = .ok t →
        (agent_handler a (.success (.obj kvs))).1 =
          ⟨200, .obj [("response", .str t), ("status", .str "ok")]⟩) ∧
      wellFormedResponse (agent_handler a (.success (.obj kvs))).1 := by
    intro a
    simp only [agent_handler, hq, Option.getD_some]
    rw [if_neg (by simp [truthy, hs])]
    cases ha : a (.str s) with
    | ok t =>
      refine ⟨rfl, fun u hu => ?_, Or.inl ⟨rfl, t, rfl⟩⟩
      cases hu
      rfl
    | error m =>
      refine ⟨rfl, fun u hu => ?_, Or.inr ⟨Or.inr rfl, m, rfl⟩⟩
      exact absurd hu (fun h => Except.noConfusion h)
  exact ⟨(key a1).1, (key a2).1, (key a1).2.1, (key a2).2.1,
    (key a1).2.2, (key a2).2.2⟩

/-- Witness for C6 at two adapters answering differently on the same query. -/
theorem agent_handler_runs_independent_witness :
    (agent_handler (okAgent "A") (.success (.obj [("query", .str "hi")]))).2 =
      [.str "hi"] ∧
    (agent_handler (okAgent "B") (.success (.obj [("query", .str "hi")]))).2 =
      [.str "hi"] ∧
    (∀ t, okAgent "A" (.str "hi") = .ok t →
      (agent_handler (okAgent "A")
          (.success (.obj [("query", .str "hi")]))).1 =
        ⟨200, .obj [("response", .str t), ("status", .str "ok")]⟩) ∧
    (∀ t, okAgent "B" (.str "hi") = .ok t →
      (agent_handler (okAgent "B")
          (.success (.obj [("query", .str "hi")]))).1 =
        ⟨200, .obj [("response", .str t), ("status", .str "ok")]⟩) ∧
    wellFormedResponse
      (agent_handler (okAgent "A")
        (.success (.obj [("query", .str "hi")]))).1 ∧
    wellFormedResponse
      (agent_handler (okAgent "B")
        (.success (.obj [("query", .str "hi")]))).1 :=
  agent_handler_runs_independent (okAgent "A") (okAgent "B")
    [("query", .str "hi")] "hi" rfl (by decide)

/-- C7: on every request the adapter is invoked at most once — the invocation
list of any run of the handler has length at most one, so there is no retry
of a failed or successful invocation. -/
theorem agent_handler_at_most_one_invocation (agent : AgentOracle)
    (body : RequestBody) :
    (agent_handler agent body).2.length ≤ 1 := by
  cases body with
  | failure msg => simp [agent_handler]
  | success data =>
    cases data <;> simp only [agent_handler] <;>
      first
      | simp
      | (split
         · simp
         · split <;> simp)

/-- C8: a request with no parseable JSON object body takes the catch-all 500
path, not the 400 validation path: when `request.json` raises (missing body,
wrong content type, malformed JSON), the handler answers 500 with the
stringified parse exception; when the body is the JSON literal `null`,
`data.get` raises an AttributeError and the handler answers 500 with its
message; neither case produces the 400 missing-query response. -/
theorem agent_handler_unparseable_body (agent : AgentOracle) (msg : String) :
    agent_handler agent (.failure msg) = (⟨500, errBody msg⟩, []) ∧
    agent_handler agent (.success .null) =
      (⟨500, errBody "'NoneType' object has no attribute 'get'"⟩, []) ∧
    (agent_handler agent (.failure msg)).1.status ≠ 400 ∧
    (agent_handler agent (.success .null)).1.status ≠ 400 := by
  exact ⟨rfl, rfl, by simp [agent_handler], by simp [agent_handler]⟩

/-- C9: a JSON-object body mapping `query` to any falsy value — null, false,
0, the empty string, an empty array or an empty object — gets status 400 with
the fixed missing-query body, and the adapter is never invoked. -/
theorem agent_handler_falsy_query (agent : AgentOracle)
    (kvs : List (String × Json)) (v : Json)
    (hq : jsonGet kvs "query" = some v) (hv : truthy v = false) :
    agent_handler agent (.success (.obj kvs)) =
      (⟨400, .obj [("error", .str "Missing 'query' field in request")]⟩, []) := by
  simp [agent_handler, hq, hv, errBody, missingQueryMsg]

/-- Witness for C9 at body query false. -/
theorem agent_handler_falsy_query_witness :
    agent_handler (okAgent "42") (.success (.obj [("query", .bool false)])) =
      (⟨400, .obj [("error", .str "Missing 'query' field in request")]⟩, []) :=
  agent_handler_falsy_query (okAgent "42") [("query", .bool false)]
    (.bool false) rfl rfl

/-- C10: every response of the handler has status 200, 400 or 500 and a body
of exactly one of the two schema shapes — on 200 the keys "response" and
"status" with "status" equal to "ok", on 400 or 500 the single key "error"
mapped to a string. -/
theorem agent_handler_response_schema (agent : AgentOracle)
    (body : RequestBody) :
    wellFormedResponse (agent_handler agent body).1 ∧
    ((agent_handler agent body).1.status = 200 ∨
     (agent_handler agent body).1.status = 400 ∨
     (agent_handler agent body).1.status = 500) := by
  have h : wellFormedResponse (agent_handler agent body).1 := by
    cases body with
    | failure msg => exact Or.inr ⟨Or.inr rfl, msg, rfl⟩
    | success data =>
      cases data with
      | obj kvs =>
        simp only [agent_handler]
        split
        · exact Or.inr ⟨Or.inl rfl, missingQueryMsg, rfl⟩
        · split
          · exact Or.inl ⟨rfl, _, rfl⟩
          · exact Or.inr ⟨Or.inr rfl, _, rfl⟩
      | null => exact Or.inr ⟨Or.inr rfl, _, rfl⟩
      | bool b => exact Or.inr ⟨Or.inr rfl, _, rfl⟩
      | num n => exact Or.inr ⟨Or.inr rfl, _, rfl⟩
      | str s => exact Or.inr ⟨Or.inr rfl, _, rfl⟩
      | arr xs => exact Or.inr ⟨Or.inr rfl, _, rfl⟩
  refine ⟨h, ?_⟩
  rcases h with ⟨h200, _⟩ | ⟨h45, _⟩
  · exact Or.inl h200
  · rcases h45 with h400 | h500
    · exact Or.inr (Or.inl h400)
    · exact Or.inr (Or.inr h500)
